import Mathlib

/-!
Verification of the terraform-provider-workos core: a shallow embedding of the
transport layer (retry and backoff in internal/client), the error taxonomy
(APIError, sentinel kinds and kind predicates), and the per-resource
reconciliation logic (organization, user, organization membership,
organization role, connection, directory), together with theorems settling the
specification claims about them.

Conventions of the embedding:
 * Go time.Duration values are integers counting nanoseconds (Int).
 * Terraform framework values (types.String, types.Bool) are three-state:
   null, unknown, or a concrete value; ValueString/ValueBool return the zero
   value on null/unknown, exactly as in the framework.
 * Randomness (rand.Int63n) is passed in as a function parameter; theorems
   that depend on its range carry the range as a hypothesis.
 * HTTP bodies are modelled post-JSON-decoding: empty, a decoded error shape,
   or raw undecodable text.
 * Already-formatted timestamps are carried as strings.
-/

namespace WorkOS

/-- Terraform framework string value (types.String): null, unknown, or a
known value. -/
inductive TFString
  | null
  | unknown
  | value (s : String)
deriving DecidableEq

/-- Models types.String.IsNull(). -/
def TFString.isNull : TFString → Bool
  | .null => true
  | _ => false

/-- Models types.String.IsUnknown(). -/
def TFString.isUnknown : TFString → Bool
  | .unknown => true
  | _ => false

/-- Models types.String.ValueString(): the zero value for null/unknown. -/
def TFString.valueString : TFString → String
  | .value s => s
  | _ => ""

/-- Terraform framework boolean value (types.Bool). -/
inductive TFBool
  | null
  | unknown
  | value (b : Bool)
deriving DecidableEq

/-- Models types.Bool.ValueBool(): false for null/unknown. -/
def TFBool.valueBool : TFBool → Bool
  | .value b => b
  | _ => false

/-! ## Transport layer (internal/client client.go) -/

/-- MaxRetries: the maximum number of retry attempts for rate-limited
requests. -/
def MaxRetries : Nat := 3

/-- One second expressed in nanoseconds, the unit of Go time.Duration. -/
def nsPerSecond : Int := 1000000000

/-- BaseRetryDelay = 1 * time.Second, in nanoseconds. -/
def BaseRetryDelay : Int := 1000000000

/-- MaxRetryDelay = 30 * time.Second, in nanoseconds. -/
def MaxRetryDelay : Int := 30000000000

/-- Parse outcome of the Retry-After header of a 429 response: absent (or
unparseable), an integer second count (strconv.Atoi succeeded), or an HTTP
date (http.ParseTime succeeded), carried as an absolute instant in
nanoseconds. -/
inductive RetryAfterHeader
  | absent
  | intSeconds (n : Int)
  | httpDate (t : Int)

/-- Models Client.calculateRetryDelay. The integer-seconds branch is tried
first, then the HTTP-date branch (time.Until(t) = t - now), and otherwise
exponential backoff 2^attempt * BaseRetryDelay capped at MaxRetryDelay plus a
jitter of rand.Int63n(delay / 4); randInt63n stands for the random draw. -/
def calculateRetryDelay (header : RetryAfterHeader) (now : Int)
    (attempt : Nat) (randInt63n : Int → Int) : Int :=
  match header with
  | .intSeconds n => n * nsPerSecond
  | .httpDate t => t - now
  | .absent =>
      let delay := min ((2 : Int) ^ attempt * BaseRetryDelay) MaxRetryDelay
      let jitter := randInt63n (delay / 4)
      delay + jitter

/-- Models the attempt loop of Client.doRequest, abstracted over the HTTP
status each attempt observes. The loop runs attempts 0 .. MaxRetries; a
non-429 status is returned on the attempt that produced it, a 429 status is
retried unless the attempt budget is exhausted, in which case that last 429
response itself is returned. The result is (attempt index, status). -/
def doRequestLoop (status : Nat → Nat) : Nat → Nat → Nat × Nat
  | 0, attempt => (attempt, status attempt)
  | fuel + 1, attempt =>
      if status attempt = 429 then doRequestLoop status fuel (attempt + 1)
      else (attempt, status attempt)

/-- Models Client.doRequest: run the attempt loop from attempt 0 with
MaxRetries retries available. -/
def doRequest (status : Nat → Nat) : Nat × Nat :=
  doRequestLoop status MaxRetries 0

/-! ## Error taxonomy (internal/client errors.go) -/

/-- The sentinel error kinds ErrNotFound, ErrUnauthorized, ErrForbidden,
ErrBadRequest, ErrConflict, ErrRateLimited, ErrInternalServer. -/
inductive Sentinel
  | notFound
  | unauthorized
  | forbidden
  | badRequest
  | conflict
  | rateLimited
  | internalServer
deriving DecidableEq

/-- A field-level validation error of an API error response. -/
structure ValidationError where
  field : String
  code : String
  message : String
deriving DecidableEq

/-- The data of an APIError: HTTP status code, semantic code string, human
message and optional field-level validation failures. -/
structure APIErrorData where
  statusCode : Nat
  code : String
  message : String
  errors : List ValidationError
deriving DecidableEq

/-- A Go error value as the provider sees it: an *APIError, one of the
sentinel errors, or a fmt.Errorf("...: %w", inner) wrapper. -/
inductive GoError
  | api (e : APIErrorData)
  | sentinelErr (s : Sentinel)
  | wrap (msg : String) (inner : GoError)
deriving DecidableEq

/-- Models APIError.Unwrap: the sentinel kind a status code maps to, or none
for the unspecified-client-error bucket (4xx other than 400, 401, 403, 404,
409, 429). -/
def apiUnwrap (status : Nat) : Option Sentinel :=
  if status = 404 then some .notFound
  else if status = 401 then some .unauthorized
  else if status = 403 then some .forbidden
  else if status = 400 then some .badRequest
  else if status = 409 then some .conflict
  else if status = 429 then some .rateLimited
  else if 500 ≤ status then some .internalServer
  else none

/-- Models errors.Is(err, sentinel): walk the Unwrap chain; an *APIError
unwraps through APIError.Unwrap, a fmt.Errorf wrapper through %w. -/
def errorsIs : GoError → Sentinel → Bool
  | .sentinelErr t, s => t == s
  | .api e, s => apiUnwrap e.statusCode == some s
  | .wrap _ inner, s => errorsIs inner s

/-- Models client.IsNotFound. -/
def IsNotFound (e : GoError) : Bool := errorsIs e .notFound

/-- Models client.IsUnauthorized. -/
def IsUnauthorized (e : GoError) : Bool := errorsIs e .unauthorized

/-- Models client.IsForbidden. -/
def IsForbidden (e : GoError) : Bool := errorsIs e .forbidden

/-- Models client.IsBadRequest. -/
def IsBadRequest (e : GoError) : Bool := errorsIs e .badRequest

/-- Models client.IsConflict. -/
def IsConflict (e : GoError) : Bool := errorsIs e .conflict

/-- Models client.IsRateLimited. -/
def IsRateLimited (e : GoError) : Bool := errorsIs e .rateLimited

/-- Models client.IsInternalServerError. -/
def IsInternalServerError (e : GoError) : Bool := errorsIs e .internalServer

/-- An HTTP response body after the JSON-decoding step of parseAPIError:
empty, successfully decoded into the error shape, or raw undecodable text. -/
inductive ResponseBody
  | empty
  | json (code : String) (message : String) (errs : List ValidationError)
  | raw (text : String)
deriving DecidableEq

/-- The per-status default message synthesized by parseAPIError when the body
carries none. -/
def defaultMessage (status : Nat) : String :=
  if status = 404 then "The requested resource was not found"
  else if status = 401 then "Invalid API key or authentication failed"
  else if status = 403 then "Access denied to this resource"
  else if status = 400 then "The request was invalid or malformed"
  else if status = 409 then "The resource already exists or conflicts with existing data"
  else if status = 429 then "Rate limit exceeded, please retry later"
  else if status = 422 then "The request was well-formed but contained invalid data"
  else if 500 ≤ status then "WorkOS service encountered an internal error"
  else s!"Unexpected error (HTTP {status})"

/-- Models parseAPIError: build an APIError from the status and the decoded
body (raw body text becomes the message when JSON decoding failed), then fill
in the default message if none was provided. -/
def parseAPIError (status : Nat) (body : ResponseBody) : APIErrorData :=
  let base : APIErrorData :=
    match body with
    | .empty => { statusCode := status, code := "", message := "", errors := [] }
    | .json c m es => { statusCode := status, code := c, message := m, errors := es }
    | .raw t => { statusCode := status, code := "", message := t, errors := [] }
  if base.message = "" then { base with message := defaultMessage status } else base

/-- Models the error path of Client.parseResponse: a status of 400 or above
becomes a structured *APIError, anything below is success. -/
def parseResponse (status : Nat) (body : ResponseBody) : Option GoError :=
  if 400 ≤ status then some (.api (parseAPIError status body)) else none

/-! ## Entity-client delete wrappers (organizations.go, users.go,
memberships.go, organization_roles.go): each forwards the transport error
wrapped with fmt.Errorf("...: %w", err). -/

/-- Models Client.DeleteOrganization's error handling. -/
def clientDeleteOrganization (transport : Option GoError) : Option GoError :=
  match transport with
  | none => none
  | some e => some (.wrap "failed to delete organization: " e)

/-- Models Client.DeleteUser's error handling. -/
def clientDeleteUser (transport : Option GoError) : Option GoError :=
  match transport with
  | none => none
  | some e => some (.wrap "failed to delete user: " e)

/-- Models Client.DeleteOrganizationMembership's error handling. -/
def clientDeleteOrganizationMembership (transport : Option GoError) : Option GoError :=
  match transport with
  | none => none
  | some e => some (.wrap "failed to delete organization membership: " e)

/-- Models Client.DeleteOrganizationRole's error handling. -/
def clientDeleteOrganizationRole (transport : Option GoError) : Option GoError :=
  match transport with
  | none => none
  | some e => some (.wrap "failed to delete organization role: " e)

/-- Outcome of a resource Delete handler: success, or a diagnostic carrying
the AddError title. -/
inductive DeleteOutcome
  | success
  | failure (title : String)
deriving DecidableEq

/-- Models OrganizationResource.Delete: a client error that IsNotFound
recognizes is logged and treated as success; any other error becomes a
diagnostic. -/
def organizationResourceDelete (clientResult : Option GoError) : DeleteOutcome :=
  match clientResult with
  | none => .success
  | some e => if IsNotFound e then .success else .failure "Error Deleting Organization"

/-- Models UserResource.Delete. -/
def userResourceDelete (clientResult : Option GoError) : DeleteOutcome :=
  match clientResult with
  | none => .success
  | some e => if IsNotFound e then .success else .failure "Error Deleting User"

/-- Models OrganizationMembershipResource.Delete. -/
def membershipResourceDelete (clientResult : Option GoError) : DeleteOutcome :=
  match clientResult with
  | none => .success
  | some e => if IsNotFound e then .success else .failure "Error Deleting Organization Membership"

/-- Models OrganizationRoleResource.Delete. -/
def roleResourceDelete (clientResult : Option GoError) : DeleteOutcome :=
  match clientResult with
  | none => .success
  | some e => if IsNotFound e then .success else .failure "Error Deleting Organization Role"

/-! ## Organization membership reconciliation: the role_slug survival rule -/

/-- Models the role_slug state mapping of OrganizationMembershipResource.Create:
trust a non-empty response value; otherwise preserve a non-null non-empty plan
value; otherwise store types.StringNull(). -/
def membershipCreateRoleSlug (plan : TFString) (respRoleSlug : String) : TFString :=
  if respRoleSlug ≠ "" then .value respRoleSlug
  else if plan.isNull = false ∧ plan.valueString ≠ "" then plan
  else .null

/-- Models the role_slug state mapping of OrganizationMembershipResource.Read:
same shape as Create, applied to the prior state value. -/
def membershipReadRoleSlug (state : TFString) (respRoleSlug : String) : TFString :=
  if respRoleSlug ≠ "" then .value respRoleSlug
  else if state.isNull = false ∧ state.valueString ≠ "" then state
  else .null

/-- Models the role_slug state mapping of OrganizationMembershipResource.Update:
trust a non-empty response value; otherwise the plan value is left untouched
(the code has no else branch). -/
def membershipUpdateRoleSlug (plan : TFString) (respRoleSlug : String) : TFString :=
  if respRoleSlug ≠ "" then .value respRoleSlug else plan

/-- Modelled from the spec words, as the refinement reference for the
three-state merge rule: trust a non-empty response value; otherwise preserve
a non-empty locally-held value unchanged; otherwise store the explicit
absent (null) marker. -/
def specRoleSlugMerge (held : TFString) (respRoleSlug : String) : TFString :=
  if respRoleSlug ≠ "" then .value respRoleSlug
  else if held.isNull = false ∧ held.valueString ≠ "" then held
  else .null

/-! ## User reconciliation (resource_user.go) -/

/-- The UserResourceModel of resource_user.go (timestamps pre-formatted). -/
structure UserResourceModel where
  id : TFString
  email : TFString
  emailVerified : TFBool
  firstName : TFString
  lastName : TFString
  password : TFString
  passwordHash : TFString
  profilePictureURL : TFString
  createdAt : TFString
  updatedAt : TFString
deriving DecidableEq

/-- The client.UserUpdateRequest: string fields are omitempty (zero value ""
is omitted), email_verified is a *bool that is omitted when nil (none). -/
structure UserUpdateRequest where
  email : String
  firstName : String
  lastName : String
  emailVerified : Option Bool
deriving DecidableEq

/-- Models the request construction of UserResource.Update: each field is set
only when the plan value differs from the prior state value (types.Equal),
otherwise the zero value remains and the field is omitted from the payload. -/
def buildUserUpdateRequest (plan state : UserResourceModel) : UserUpdateRequest :=
  { email := if plan.email = state.email then "" else plan.email.valueString
    firstName := if plan.firstName = state.firstName then "" else plan.firstName.valueString
    lastName := if plan.lastName = state.lastName then "" else plan.lastName.valueString
    emailVerified :=
      if plan.emailVerified = state.emailVerified then none
      else some plan.emailVerified.valueBool }

/-! ## Organization reconciliation (OrganizationResource) -/

/-- A domain-detail object of the API response (client.Domain). -/
structure Domain where
  id : String
  object : String
  domain : String
  state : String
  organizationID : String
  verificationType : String
deriving DecidableEq

/-- The client.Organization response shape (timestamps pre-formatted). -/
structure Organization where
  id : String
  object : String
  name : String
  allowProfilesOutsideOrganization : Bool
  domains : List Domain
  createdAt : String
  updatedAt : String
deriving DecidableEq

/-- The OrganizationResourceModel: domains is a types.Set of strings, none
standing for types.SetNull. -/
structure OrganizationResourceModel where
  id : TFString
  name : TFString
  domains : Option (List String)
  createdAt : TFString
  updatedAt : TFString
deriving DecidableEq

/-- Models the state mapping of OrganizationResource.Read: overwrite name and
timestamps from the response; map a non-empty domain list down to the plain
string values of its domain-detail objects, and collapse an empty list to
types.SetNull. -/
def organizationRead (state : OrganizationResourceModel) (org : Organization) :
    OrganizationResourceModel :=
  let st := { state with
    name := TFString.value org.name
    createdAt := TFString.value org.createdAt
    updatedAt := TFString.value org.updatedAt }
  if 0 < org.domains.length then
    { st with domains := some (org.domains.map Domain.domain) }
  else
    { st with domains := none }

/-! ## Organization role reconciliation (OrganizationRoleResource) -/

/-- The OrganizationRoleResourceModel (permissions as an optional string
list, none standing for a null types.List). -/
structure OrganizationRoleResourceModel where
  id : TFString
  organizationID : TFString
  slug : TFString
  name : TFString
  description : TFString
  roleType : TFString
  permissions : Option (List String)
  createdAt : TFString
  updatedAt : TFString
deriving DecidableEq

/-- The client.OrganizationRoleCreateRequest. -/
structure OrganizationRoleCreateRequest where
  slug : String
  name : String
  description : String
deriving DecidableEq

/-- Models the request construction of OrganizationRoleResource.Create: slug
and name are taken from the plan as-is; description only when neither null
nor unknown. -/
def buildOrganizationRoleCreateRequest (plan : OrganizationRoleResourceModel) :
    OrganizationRoleCreateRequest :=
  let base : OrganizationRoleCreateRequest :=
    { slug := plan.slug.valueString, name := plan.name.valueString, description := "" }
  if plan.description.isNull = false ∧ plan.description.isUnknown = false then
    { base with description := plan.description.valueString }
  else base

/-- Models the request path of Client.CreateOrganizationRole. -/
def createOrganizationRolePath (orgID : String) : String :=
  "/authorization/organizations/" ++ orgID ++ "/roles"

/-- Models strings.SplitN applied to the first occurrence of a slash: the
text before it and, when present, the remainder after it. -/
def splitSlashChars : List Char → List Char × Option (List Char)
  | [] => ([], none)
  | c :: rest =>
      if c = '/' then ([], some rest)
      else
        let r := splitSlashChars rest
        (c :: r.1, r.2)

/-- Models strings.SplitN(id, "/", 2): one part when no slash occurs, else
the text before the first slash and everything after it. -/
def splitN2 (s : String) : List String :=
  match splitSlashChars s.data with
  | (pre, none) => [String.mk pre]
  | (pre, some rest) => [String.mk pre, String.mk rest]

/-- Outcome of OrganizationRoleResource.ImportState: either the two state
attributes set from the composite identifier, or the Invalid Import ID
diagnostic raised before any client call. -/
inductive ImportResult
  | ok (organizationID : String) (slug : String)
  | invalidImportID
deriving DecidableEq

/-- Models OrganizationRoleResource.ImportState: split the identifier on the
first slash; anything other than two non-empty segments is an input
validation error, raised before any network call; otherwise set
organization_id and slug. -/
def organizationRoleImportState (id : String) : ImportResult :=
  match splitN2 id with
  | [a, b] => if a = "" ∨ b = "" then .invalidImportID else .ok a b
  | _ => .invalidImportID

/-! ## Provider registry and connection/directory client surface -/

/-- The managed resource kinds registered by WorkOSProvider.Resources. -/
inductive RegisteredResource
  | organization
  | connection
  | directory
  | webhook
  | user
  | organizationMembership
  | organizationRole
deriving DecidableEq

/-- Models WorkOSProvider.Resources: the list of resource constructors the
provider registers with the host. -/
def providerResources : List RegisteredResource :=
  [.organization, .connection, .directory, .webhook, .user,
   .organizationMembership, .organizationRole]

/-- The kinds of operation an entity client exposes. -/
inductive ClientOp
  | create
  | get
  | update
  | delete
  | listAll
  | search
deriving DecidableEq

/-- Whether an operation kind is pure retrieval. -/
def ClientOp.isRetrieval : ClientOp → Bool
  | .get | .listAll | .search => true
  | _ => false

/-- Models the method surface of internal/client/connections.go:
CreateConnection, GetConnection, UpdateConnection, DeleteConnection,
ListConnections, GetConnectionByOrganizationAndType. -/
def connectionClientOps : List ClientOp :=
  [.create, .get, .update, .delete, .listAll, .search]

/-- Models the directory-entity method surface of
internal/client/directories.go: CreateDirectory, GetDirectory,
UpdateDirectory, DeleteDirectory, ListDirectories,
GetDirectoryByOrganization. -/
def directoryClientOps : List ClientOp :=
  [.create, .get, .update, .delete, .listAll, .search]

/-- The ConnectionResourceModel of the registered workos_connection managed
resource. -/
structure ConnectionResourceModel where
  id : TFString
  organizationID : TFString
  connectionType : TFString
  name : TFString
  state : TFString
  status : TFString
  createdAt : TFString
  updatedAt : TFString
deriving DecidableEq

/-- The client.ConnectionCreateRequest. -/
structure ConnectionCreateRequest where
  organizationID : String
  connectionType : String
  name : String
deriving DecidableEq

/-- Models the request construction of ConnectionResource.Create. -/
def buildConnectionCreateRequest (plan : ConnectionResourceModel) :
    ConnectionCreateRequest :=
  { organizationID := plan.organizationID.valueString
    connectionType := plan.connectionType.valueString
    name := plan.name.valueString }

/-- The request path of Client.CreateConnection. -/
def connectionsPath : String := "/connections"

/-! ## Theorems settling the claims -/

/-- C1 counterexample: the three-state rule does not apply identically on
Update. When the API response omits role_slug and the locally-held plan value
is a non-null empty string, Update keeps that empty string where the rule
(and Create and Read) produce the explicit null marker. -/
theorem claim1_counterexample :
    membershipUpdateRoleSlug (TFString.value "") "" = TFString.value "" ∧
    specRoleSlugMerge (TFString.value "") "" = TFString.null ∧
    membershipCreateRoleSlug (TFString.value "") "" = TFString.null ∧
    membershipUpdateRoleSlug (TFString.value "") "" ≠
      specRoleSlugMerge (TFString.value "") "" := by
  refine ⟨rfl, rfl, rfl, ?_⟩
  decide

/-- C1 (amended): Create and Read implement the three-state role_slug merge
rule exactly; Update implements its first branch (trust a non-empty response
value) and otherwise leaves the locally-held plan value untouched, which
coincides with the rule whenever that value is null or a known non-empty
string. -/
theorem claim1_role_slug_merge (p : TFString) (resp : String)
    (h : p = TFString.null ∨ ∃ s, p = TFString.value s ∧ s ≠ "") :
    (∀ (q : TFString) (r : String),
        membershipCreateRoleSlug q r = specRoleSlugMerge q r) ∧
    (∀ (q : TFString) (r : String),
        membershipReadRoleSlug q r = specRoleSlugMerge q r) ∧
    membershipUpdateRoleSlug p resp = specRoleSlugMerge p resp := by
  refine ⟨fun q r => rfl, fun q r => rfl, ?_⟩
  rcases h with h | ⟨s, hp, hs⟩
  · subst h
    by_cases hr : resp = ""
    · subst hr
      simp [membershipUpdateRoleSlug, specRoleSlugMerge, TFString.isNull]
    · simp [membershipUpdateRoleSlug, specRoleSlugMerge, hr]
  · subst hp
    by_cases hr : resp = ""
    · subst hr
      simp [membershipUpdateRoleSlug, specRoleSlugMerge, TFString.isNull,
        TFString.valueString, hs]
    · simp [membershipUpdateRoleSlug, specRoleSlugMerge, hr]

/-- Witness for C1: the amended theorem applied at a concrete null plan value
and empty response. -/
theorem claim1_role_slug_merge_witness :
    membershipUpdateRoleSlug TFString.null "" = specRoleSlugMerge TFString.null "" :=
  (claim1_role_slug_merge TFString.null "" (Or.inl rfl)).2.2

/-- Prior state for the C2 scenario: a persisted user with first name John
and a verified email address. -/
def c2State : UserResourceModel :=
  { id := .value "user_1"
    email := .value "user@example.com"
    emailVerified := .value true
    firstName := .value "John"
    lastName := .value "Doe"
    password := .null
    passwordHash := .null
    profilePictureURL := .null
    createdAt := .value "2026-01-01T00:00:00Z"
    updatedAt := .value "2026-01-01T00:00:00Z" }

/-- Plan for the C2 scenario: identical to the prior state except first_name
changes to Jane. -/
def c2Plan : UserResourceModel := { c2State with firstName := .value "Jane" }

/-- C2 (code bug): on a user update where only first_name changes, the
outgoing payload does NOT include email_verified: the builder leaves the
pointer nil (none), and the omitempty tag drops it from the JSON, contrary to
the claim and to the changelog statement that the flag is always resent. -/
theorem claim2_email_verified_omitted :
    (buildUserUpdateRequest c2Plan c2State).firstName = "Jane" ∧
    (buildUserUpdateRequest c2Plan c2State).email = "" ∧
    (buildUserUpdateRequest c2Plan c2State).emailVerified = none := by
  refine ⟨?_, ?_, ?_⟩ <;> decide

/-- C7 (code bug): OrganizationRoleResource.Create transmits the configured
slug unmodified — the request slug equals the plan slug verbatim and carries
no fixed naming-convention marker — contrary to the claim that the provider
applies a required naming convention before transmission. -/
theorem claim7_slug_sent_unmodified :
    (buildOrganizationRoleCreateRequest
        { id := .unknown, organizationID := .value "org_123",
          slug := .value "billing-admin", name := .value "Billing Admin",
          description := .null, roleType := .unknown, permissions := none,
          createdAt := .unknown, updatedAt := .unknown }).slug = "billing-admin" ∧
    ¬ ((buildOrganizationRoleCreateRequest
        { id := .unknown, organizationID := .value "org_123",
          slug := .value "billing-admin", name := .value "Billing Admin",
          description := .null, roleType := .unknown, permissions := none,
          createdAt := .unknown, updatedAt := .unknown }).slug.take 4 = "org-") ∧
    createOrganizationRolePath "org_123" = "/authorization/organizations/org_123/roles" := by
  refine ⟨?_, ?_, ?_⟩ <;> decide

/-- C9: organization-role import on org_123/billing-admin sets
organization_id and slug from the two segments; an identifier without a slash
or with an empty segment is rejected with the Invalid Import ID validation
error before any network call. -/
theorem claim9_import_state :
    organizationRoleImportState "org_123/billing-admin" =
      ImportResult.ok "org_123" "billing-admin" ∧
    organizationRoleImportState "org_123" = ImportResult.invalidImportID ∧
    organizationRoleImportState "org_123/" = ImportResult.invalidImportID := by
  refine ⟨?_, ?_, ?_⟩ <;> decide

/-- Invariant of the doRequest attempt loop, by induction on the remaining
retry budget: the returned attempt index lies within the budget, the returned
status is the one that attempt observed, every earlier attempt within the
window saw a 429, and a 429 is only ever returned once the budget is
exhausted. -/
theorem doRequestLoop_spec (status : Nat → Nat) :
    ∀ (fuel a : Nat),
      a ≤ (doRequestLoop status fuel a).1 ∧
      (doRequestLoop status fuel a).1 ≤ a + fuel ∧
      (doRequestLoop status fuel a).2 = status (doRequestLoop status fuel a).1 ∧
      (∀ j, a ≤ j → j < (doRequestLoop status fuel a).1 → status j = 429) ∧
      ((doRequestLoop status fuel a).2 = 429 → (doRequestLoop status fuel a).1 = a + fuel) := by
  intro fuel
  induction fuel with
  | zero =>
      intro a
      refine ⟨le_refl a, by simp [doRequestLoop], rfl, ?_, ?_⟩
      · intro j hj hj2
        simp [doRequestLoop] at hj2
        omega
      · intro _
        simp [doRequestLoop]
  | succ n ih =>
      intro a
      by_cases h429 : status a = 429
      · have hstep : doRequestLoop status (n + 1) a = doRequestLoop status n (a + 1) := by
          simp [doRequestLoop, h429]
        obtain ⟨ih1, ih2, ih3, ih4, ih5⟩ := ih (a + 1)
        rw [hstep]
        refine ⟨by omega, by omega, ih3, ?_, by omega⟩
        intro j hj hj2
        rcases Nat.eq_or_lt_of_le hj with hj | hj
        · exact hj ▸ h429
        · exact ih4 j (by omega) hj2
      · have hstep : doRequestLoop status (n + 1) a = (a, status a) := by
          simp [doRequestLoop, h429]
        rw [hstep]
        refine ⟨le_refl a, by omega, rfl, ?_, ?_⟩
        · intro j hj hj2
          simp at hj2
          omega
        · intro h
          exact absurd h h429

/-- C4: doRequest retries only on 429 (every attempt before the returned one
observed a 429), performs at most MaxRetries = 3 retries (the returned
attempt index is at most 3), hands back the response of the attempt that
produced it, and returns a 429 only when the retry budget is exhausted — so
the last 429 response itself reaches the caller, and any non-429 status,
5xx included, is returned on the attempt that produced it, never retried. -/
theorem claim4_do_request (status : Nat → Nat) :
    (doRequest status).1 ≤ MaxRetries ∧
    (doRequest status).2 = status (doRequest status).1 ∧
    (∀ j, j < (doRequest status).1 → status j = 429) ∧
    ((doRequest status).2 = 429 → (doRequest status).1 = MaxRetries) := by
  obtain ⟨h1, h2, h3, h4, h5⟩ := doRequestLoop_spec status MaxRetries 0
  exact ⟨by simpa [doRequest] using h2,
         h3,
         fun j hj => h4 j (Nat.zero_le j) hj,
         fun h => by simpa [doRequest] using h5 h⟩

/-- Witness for C4: on a stream of nothing but 429s, the final attempt index
is MaxRetries and the last 429 is returned. -/
theorem claim4_do_request_witness :
    (doRequest (fun _ => 429)).1 = MaxRetries :=
  (claim4_do_request (fun _ => 429)).2.2.2 (by decide)

/-- C3: for a 429 response whose Retry-After header parses as an integer n,
the computed delay is exactly n seconds with no jitter; with no usable
Retry-After header it equals the backoff 2^attempt * BaseRetryDelay capped at
MaxRetryDelay plus the draw rand.Int63n(delay / 4), which lies in
[0, 25% of the capped delay), so the delay never falls below the capped
backoff value. The attempt bound matches the call sites inside doRequest. -/
theorem claim3_retry_delay (n now : Int) (attempt : Nat) (randInt63n : Int → Int)
    (_hattempt : attempt < MaxRetries)
    (hrand : ∀ k : Int, 0 < k → 0 ≤ randInt63n k ∧ randInt63n k < k) :
    calculateRetryDelay (RetryAfterHeader.intSeconds n) now attempt randInt63n =
      n * nsPerSecond ∧
    calculateRetryDelay RetryAfterHeader.absent now attempt randInt63n =
      min ((2 : Int) ^ attempt * BaseRetryDelay) MaxRetryDelay +
        randInt63n ((min ((2 : Int) ^ attempt * BaseRetryDelay) MaxRetryDelay) / 4) ∧
    min ((2 : Int) ^ attempt * BaseRetryDelay) MaxRetryDelay ≤
      calculateRetryDelay RetryAfterHeader.absent now attempt randInt63n ∧
    calculateRetryDelay RetryAfterHeader.absent now attempt randInt63n <
      min ((2 : Int) ^ attempt * BaseRetryDelay) MaxRetryDelay +
        (min ((2 : Int) ^ attempt * BaseRetryDelay) MaxRetryDelay) / 4 := by
  have hpow : (1 : Int) ≤ (2 : Int) ^ attempt := by
    have := pow_pos (by norm_num : (0 : Int) < 2) attempt
    omega
  have hbase : BaseRetryDelay ≤ (2 : Int) ^ attempt * BaseRetryDelay := by
    have := mul_le_mul_of_nonneg_right hpow
      (by norm_num [BaseRetryDelay] : (0 : Int) ≤ BaseRetryDelay)
    simpa using this
  have hmin : BaseRetryDelay ≤ min ((2 : Int) ^ attempt * BaseRetryDelay) MaxRetryDelay := by
    refine le_min hbase ?_
    norm_num [BaseRetryDelay, MaxRetryDelay]
  have hquarter : 0 < (min ((2 : Int) ^ attempt * BaseRetryDelay) MaxRetryDelay) / 4 := by
    have h4 : (250000000 : Int) ≤ (min ((2 : Int) ^ attempt * BaseRetryDelay) MaxRetryDelay) / 4 := by
      have := Int.ediv_le_ediv (by norm_num : (0 : Int) < 4) hmin
      simpa [BaseRetryDelay] using this
    omega
  obtain ⟨hj0, hj1⟩ := hrand _ hquarter
  refine ⟨rfl, rfl, ?_, ?_⟩
  · show min ((2 : Int) ^ attempt * BaseRetryDelay) MaxRetryDelay ≤
      min ((2 : Int) ^ attempt * BaseRetryDelay) MaxRetryDelay +
        randInt63n ((min ((2 : Int) ^ attempt * BaseRetryDelay) MaxRetryDelay) / 4)
    omega
  · show min ((2 : Int) ^ attempt * BaseRetryDelay) MaxRetryDelay +
        randInt63n ((min ((2 : Int) ^ attempt * BaseRetryDelay) MaxRetryDelay) / 4) <
      min ((2 : Int) ^ attempt * BaseRetryDelay) MaxRetryDelay +
        (min ((2 : Int) ^ attempt * BaseRetryDelay) MaxRetryDelay) / 4
    omega

/-- Witness for C3: the theorem at n = 5 seconds, attempt 0, and the zero
random draw. -/
theorem claim3_retry_delay_witness :
    calculateRetryDelay (RetryAfterHeader.intSeconds 5) 0 0 (fun _ => 0) =
      5 * nsPerSecond ∧
    calculateRetryDelay RetryAfterHeader.absent 0 0 (fun _ => 0) =
      min ((2 : Int) ^ (0 : Nat) * BaseRetryDelay) MaxRetryDelay +
        (fun _ => (0 : Int)) ((min ((2 : Int) ^ (0 : Nat) * BaseRetryDelay) MaxRetryDelay) / 4) ∧
    min ((2 : Int) ^ (0 : Nat) * BaseRetryDelay) MaxRetryDelay ≤
      calculateRetryDelay RetryAfterHeader.absent 0 0 (fun _ => 0) ∧
    calculateRetryDelay RetryAfterHeader.absent 0 0 (fun _ => 0) <
      min ((2 : Int) ^ (0 : Nat) * BaseRetryDelay) MaxRetryDelay +
        (min ((2 : Int) ^ (0 : Nat) * BaseRetryDelay) MaxRetryDelay) / 4 :=
  claim3_retry_delay 5 0 0 (fun _ => 0) (by decide)
    (fun k hk => ⟨Int.le_refl 0, hk⟩)

/-- C5 counterexample: Create, Update and Delete paths for connections and
directories remain enabled — the connection and directory entity clients
expose create/update/delete methods and the provider registers the
workos_connection and workos_directory managed resources — so the claim that
only retrieval is supported fails. -/
theorem claim5_counterexample :
    ClientOp.create ∈ connectionClientOps ∧
    ClientOp.update ∈ connectionClientOps ∧
    ClientOp.delete ∈ connectionClientOps ∧
    ClientOp.create ∈ directoryClientOps ∧
    ClientOp.update ∈ directoryClientOps ∧
    ClientOp.delete ∈ directoryClientOps ∧
    RegisteredResource.connection ∈ providerResources ∧
    RegisteredResource.directory ∈ providerResources ∧
    ¬ (∀ op ∈ connectionClientOps, op.isRetrieval = true) := by
  refine ⟨by decide, by decide, by decide, by decide, by decide, by decide,
    by decide, by decide, ?_⟩
  intro h
  exact absurd (h ClientOp.create (by decide)) (by decide)

/-- C5 (amended): connections and directories support retrieval (get by id,
list, and search by organization or organization+type) — and, contrary to the
read-only statement, the entity clients also still expose Create, Update and
Delete, the provider registers both as managed resources, and the connection
Create path builds a request for the /connections endpoint from the plan. -/
theorem claim5_read_and_write_surface :
    (ClientOp.get ∈ connectionClientOps ∧ ClientOp.listAll ∈ connectionClientOps ∧
      ClientOp.search ∈ connectionClientOps) ∧
    (ClientOp.get ∈ directoryClientOps ∧ ClientOp.listAll ∈ directoryClientOps ∧
      ClientOp.search ∈ directoryClientOps) ∧
    (ClientOp.create ∈ connectionClientOps ∧ ClientOp.update ∈ connectionClientOps ∧
      ClientOp.delete ∈ connectionClientOps) ∧
    (ClientOp.create ∈ directoryClientOps ∧ ClientOp.update ∈ directoryClientOps ∧
      ClientOp.delete ∈ directoryClientOps) ∧
    RegisteredResource.connection ∈ providerResources ∧
    RegisteredResource.directory ∈ providerResources ∧
    (buildConnectionCreateRequest
        { id := .unknown, organizationID := .value "org_123",
          connectionType := .value "OktaSAML", name := .value "Okta SSO",
          state := .unknown, status := .unknown,
          createdAt := .unknown, updatedAt := .unknown }).organizationID = "org_123" ∧
    connectionsPath = "/connections" := by
  refine ⟨⟨by decide, by decide, by decide⟩, ⟨by decide, by decide, by decide⟩,
    ⟨by decide, by decide, by decide⟩, ⟨by decide, by decide, by decide⟩,
    by decide, by decide, by decide, rfl⟩

/-- C6: an organization Read maps the response domains from domain-detail
objects down to their plain string values, and a response with zero domains
makes the persisted domain set the explicit null marker, never an
empty-but-present set. -/
theorem claim6_domains_mapping (st : OrganizationResourceModel) (org : Organization) :
    (organizationRead st org).domains =
      (if org.domains.isEmpty then none else some (org.domains.map Domain.domain)) ∧
    ((organizationRead st org).domains = none ↔ org.domains = []) := by
  cases h : org.domains with
  | nil => simp [organizationRead, h]
  | cons d ds => simp [organizationRead, h]

/-- A sample domain-detail object for the C6 witness. -/
def c6Domain : Domain :=
  { id := "dom_1", object := "organization_domain", domain := "acme.com",
    state := "verified", organizationID := "org_1", verificationType := "" }

/-- A sample prior state for the C6 witness. -/
def c6State : OrganizationResourceModel :=
  { id := .value "org_1", name := .value "Acme", domains := some ["stale.com"],
    createdAt := .null, updatedAt := .null }

/-- A sample one-domain API response for the C6 witness. -/
def c6OrgOneDomain : Organization :=
  { id := "org_1", object := "organization", name := "Acme",
    allowProfilesOutsideOrganization := false, domains := [c6Domain],
    createdAt := "t0", updatedAt := "t1" }

/-- A sample zero-domain API response for the C6 witness. -/
def c6OrgNoDomains : Organization :=
  { id := "org_1", object := "organization", name := "Acme",
    allowProfilesOutsideOrganization := false, domains := [],
    createdAt := "t0", updatedAt := "t1" }

/-- Witness for C6: the theorem evaluated at a one-domain response and at the
zero-domain response. -/
theorem claim6_domains_mapping_witness :
    ((organizationRead c6State c6OrgOneDomain).domains =
      (if c6OrgOneDomain.domains.isEmpty then none
       else some (c6OrgOneDomain.domains.map Domain.domain))) ∧
    ((organizationRead c6State c6OrgNoDomains).domains = none ↔
      c6OrgNoDomains.domains = []) :=
  ⟨(claim6_domains_mapping c6State c6OrgOneDomain).1,
   (claim6_domains_mapping c6State c6OrgNoDomains).2⟩

/-- The status code of a parsed API error is the response status. -/
theorem parseAPIError_statusCode (status : Nat) (body : ResponseBody) :
    (parseAPIError status body).statusCode = status := by
  cases body <;> simp [parseAPIError] <;> split <;> rfl

/-- C8: every resource Delete (organization, user, organization membership,
organization role) treats a not-found error from the remote API as success,
including through the client wrapper; in particular deleting the same
organization twice — the second call coming back from the transport as a
remote 404 — succeeds both times without an error. -/
theorem claim8_delete_not_found (e : GoError) (h : IsNotFound e = true) :
    organizationResourceDelete (clientDeleteOrganization (some e)) = DeleteOutcome.success ∧
    userResourceDelete (clientDeleteUser (some e)) = DeleteOutcome.success ∧
    membershipResourceDelete (clientDeleteOrganizationMembership (some e)) =
      DeleteOutcome.success ∧
    roleResourceDelete (clientDeleteOrganizationRole (some e)) = DeleteOutcome.success ∧
    organizationResourceDelete
      (clientDeleteOrganization (parseResponse 204 ResponseBody.empty)) =
      DeleteOutcome.success ∧
    organizationResourceDelete
      (clientDeleteOrganization (parseResponse 404 ResponseBody.empty)) =
      DeleteOutcome.success := by
  refine ⟨?_, ?_, ?_, ?_, by decide, by decide⟩ <;>
    simp [organizationResourceDelete, userResourceDelete, membershipResourceDelete,
      roleResourceDelete, clientDeleteOrganization, clientDeleteUser,
      clientDeleteOrganizationMembership, clientDeleteOrganizationRole,
      IsNotFound, errorsIs] <;>
    simpa [IsNotFound, errorsIs] using h

/-- Witness for C8: the theorem at the structured 404 error the transport
produces for a deleted organization. -/
theorem claim8_delete_not_found_witness :
    organizationResourceDelete
      (clientDeleteOrganization (some (GoError.api (parseAPIError 404 ResponseBody.empty)))) =
      DeleteOutcome.success :=
  (claim8_delete_not_found (GoError.api (parseAPIError 404 ResponseBody.empty))
    (by decide)).1

/-- C10: an APIError whose status is a 4xx other than 400, 401, 403, 404,
409 or 429 — a 422 validation error in particular — unwraps to nothing, so
all seven kind predicates return false on it: the unspecified-client-error
bucket has no queryable sentinel, even though a 422 still carries a
synthesized message and its field-level details. -/
theorem claim10_unspecified_client_error (s : Nat) (body : ResponseBody)
    (h4 : 400 ≤ s) (h5 : s < 500)
    (hne : s ≠ 400 ∧ s ≠ 401 ∧ s ≠ 403 ∧ s ≠ 404 ∧ s ≠ 409 ∧ s ≠ 429) :
    apiUnwrap s = none ∧
    IsNotFound (GoError.api (parseAPIError s body)) = false ∧
    IsUnauthorized (GoError.api (parseAPIError s body)) = false ∧
    IsForbidden (GoError.api (parseAPIError s body)) = false ∧
    IsBadRequest (GoError.api (parseAPIError s body)) = false ∧
    IsConflict (GoError.api (parseAPIError s body)) = false ∧
    IsRateLimited (GoError.api (parseAPIError s body)) = false ∧
    IsInternalServerError (GoError.api (parseAPIError s body)) = false ∧
    (parseAPIError 422 ResponseBody.empty).message =
      "The request was well-formed but contained invalid data" ∧
    (∀ (c m : String) (es : List ValidationError),
      (parseAPIError 422 (ResponseBody.json c m es)).errors = es) := by
  obtain ⟨hne400, hne401, hne403, hne404, hne409, hne429⟩ := hne
  have hunwrap : apiUnwrap s = none := by
    unfold apiUnwrap
    split_ifs <;> first | rfl | omega
  have hst : (parseAPIError s body).statusCode = s := parseAPIError_statusCode s body
  refine ⟨hunwrap, ?_, ?_, ?_, ?_, ?_, ?_, ?_, by decide, ?_⟩
  · simp [IsNotFound, errorsIs, hst, hunwrap]
  · simp [IsUnauthorized, errorsIs, hst, hunwrap]
  · simp [IsForbidden, errorsIs, hst, hunwrap]
  · simp [IsBadRequest, errorsIs, hst, hunwrap]
  · simp [IsConflict, errorsIs, hst, hunwrap]
  · simp [IsRateLimited, errorsIs, hst, hunwrap]
  · simp [IsInternalServerError, errorsIs, hst, hunwrap]
  · intro c m es
    simp [parseAPIError]
    split <;> rfl

/-- Witness for C10: the theorem at the 422 validation status with an empty
body. -/
theorem claim10_unspecified_client_error_witness :
    apiUnwrap 422 = none ∧
    IsNotFound (GoError.api (parseAPIError 422 ResponseBody.empty)) = false :=
  ⟨(claim10_unspecified_client_error 422 ResponseBody.empty (by decide) (by decide)
      ⟨by decide, by decide, by decide, by decide, by decide, by decide⟩).1,
   (claim10_unspecified_client_error 422 ResponseBody.empty (by decide) (by decide)
      ⟨by decide, by decide, by decide, by decide, by decide, by decide⟩).2.1⟩

end WorkOS
